import Mathlib

/-!
Verification of the dev-context Jira/PR analyzer.

The repository is a command-line tool (several near-duplicate iterations) that
reads Jira credentials from the process environment, fetches a ticket through
one authenticated GET request, prints its fields, renders a fixed prompt from
the ticket fields and sends it to a local Ollama model.  This file gives a
shallow embedding of that pipeline: the network and the model backend are
explicit parameters describing what the outside world returns, and each
function produces a trace of the console lines it prints together with the
data it passes onward.
-/

/-- `status` object of a Jira issue: `{ name }`. -/
structure JiraStatus where
  name : String
deriving DecidableEq, Repr

/-- `fields` object of a Jira issue.  The upstream API may return `null` for
`description`, and the code guards every use with `|| 'No description provided'`,
so the field is embedded as an `Option String` (with `some ""` for the empty
string, which is equally falsy in JavaScript). -/
structure JiraFields where
  summary : String
  description : Option String
  status : JiraStatus
deriving DecidableEq, Repr

/-- One Jira issue of the search response envelope. -/
structure JiraIssue where
  key : String
  fields : JiraFields
deriving DecidableEq, Repr

/-- The JSON envelope returned by the Jira search endpoint: `{ issues: [...] }`. -/
structure JiraResponse where
  issues : List JiraIssue
deriving DecidableEq, Repr

/-- The three environment variables read by `fetchJiraTicket` (lines 28-30).
`none` stands for an unset variable; `some ""` for a variable set to the empty
string (both are falsy under the `!email || !apiToken || !jiraDomain` check). -/
structure Env where
  JIRA_EMAIL : Option String
  JIRA_API_TOKEN : Option String
  JIRA_DOMAIN : Option String
deriving DecidableEq, Repr

/-- JavaScript falsiness of an optional string: `undefined`, `null` and `""`
are falsy; every other string is truthy. -/
def isBlank : Option String → Bool
  | none => true
  | some s => s = ""

/-- The guard at line 32: `if (!email || !apiToken || !jiraDomain)`. -/
def envMissing (env : Env) : Bool :=
  isBlank env.JIRA_EMAIL || isBlank env.JIRA_API_TOKEN || isBlank env.JIRA_DOMAIN

/-- Outcome of the JSON body parse (`response.json()` either yields a value or
throws). -/
inductive Parsed where
  | ok (resp : JiraResponse)
  | error (msg : String)
deriving DecidableEq, Repr

/-- What the single `fetch` call observes from the network: either the request
throws (network failure), or a response arrives with a numeric status code, a
raw text body, and a parse outcome for the body. -/
inductive HttpOutcome where
  | netError (msg : String)
  | response (status : Nat) (body : String) (parsed : Parsed)
deriving DecidableEq, Repr

/-- `response.ok` of the Fetch API: status in the inclusive range 200-299. -/
def respOk (status : Nat) : Bool :=
  200 ≤ status && status < 300

/-- What `chain.invoke` returns: a completion string, or a thrown error. -/
inductive ModelOutcome where
  | ok (completion : String)
  | error (msg : String)
deriving DecidableEq, Repr

/-- The fixed placeholder substituted for a missing description (lines 69 and 105). -/
def placeholderText : String := "No description provided"

/-- `issue.fields.description || 'No description provided'`: the JavaScript
`||` falls through to the placeholder exactly when the description is null,
undefined or the empty string. -/
def descOrPlaceholder (d : Option String) : String :=
  match d with
  | none => placeholderText
  | some s => if s = "" then placeholderText else s

/-- The rendered prompt: the fixed template of lines 89-98 with the four
placeholders substituted by `PromptTemplate.invoke`.  The template text is kept
byte-for-byte (12-space indentation, the trailing space after the first
sentence, the final newline and 8 spaces before the closing backtick). -/
def promptTemplateFilled (key summary description status : String) : String :=
  "\n            In a one paragraph response with no titles, summarize the following Jira ticket for a software engineer preparing to review a pull request. \n            Be concise and focus on the problem and any key technical details relevant to the code changes.\n\n            Jira Data:\n            Ticket: "
    ++ key
    ++ "\n            Summary: "
    ++ summary
    ++ "\n            Description: "
    ++ description
    ++ "\n            Status: "
    ++ status
    ++ "\n        "

/-- The values passed to `chain.invoke` at lines 102-107, substituted into the
template: this is the prompt string the model receives for a given issue. -/
def renderPrompt (issue : JiraIssue) : String :=
  promptTemplateFilled issue.key issue.fields.summary
    (descOrPlaceholder issue.fields.description) issue.fields.status.name

/-- Console line printed at line 87 (`console.log` joins its two arguments
with a space; the model name is the hard-coded "deepseek-r1:14b"). -/
def connectMsg : String := "Connecing with model: deepseek-r1:14b"

/-- Trace of one `analyzeWithOllama` call: the prompt string sent to the
backend and the console lines printed. -/
structure AnalyzeTrace where
  prompt : String
  log : List String
deriving DecidableEq, Repr

/-- `analyzeWithOllama` (lines 79-116).  The model object is constructed with
hard-coded settings, the connect message is printed, the prompt is rendered
from the issue and sent; a successful invocation prints the completion framed
by a header and a divider, and any thrown error is caught at line 113 and
printed, never rethrown. -/
def analyzeWithOllama (issue : JiraIssue) (backend : ModelOutcome) : AnalyzeTrace :=
  { prompt := renderPrompt issue
    log :=
      match backend with
      | .ok completion =>
          [connectMsg, "\nAI Analysis:", completion, "-------------------"]
      | .error msg =>
          [connectMsg, "Error analyzing with Ollama: " ++ msg] }

/-- Trace of one `fetchJiraTicket` call: how many environment variables were
read, how many network requests were issued, the console lines printed, the
issue handed to the model stage (`none` when the ticket is absent), and the
prompt sent to the model backend (`none` when the model stage never ran). -/
structure FetchTrace where
  envReads : Nat
  networkCalls : Nat
  log : List String
  ticket : Option JiraIssue
  prompt : Option String
deriving DecidableEq, Repr

/-- The console lines of the success path, lines 65-70. -/
def ticketDetails (issue : JiraIssue) : List String :=
  ["\nTicket Details:",
   "Issue Key: " ++ issue.key,
   "Summary: " ++ issue.fields.summary,
   "Status: " ++ issue.fields.status.name,
   "Description: " ++ descOrPlaceholder issue.fields.description,
   "-------------------"]

/-- `fetchJiraTicket` (lines 27-77).  The three environment variables are read
unconditionally at lines 28-30 (hence `envReads := 3` on every path); a falsy
value among them prints the guidance message and returns before any network
call.  Otherwise one GET is issued.  A thrown network error and a JSON parse
error are both caught by the single `try` at line 41 and printed at line 75; a
non-ok status prints the status code and raw body; an empty `issues` list
prints the not-found message naming the requested ticket; otherwise the first
issue is printed and passed to `analyzeWithOllama`. -/
def fetchJiraTicket (env : Env) (ticketNumber : String) (net : HttpOutcome)
    (backend : ModelOutcome) : FetchTrace :=
  if envMissing env then
    { envReads := 3, networkCalls := 0
      log := ["Please set JIRA_EMAIL, JIRA_API_TOKEN, and JIRA_DOMAIN environment variables"]
      ticket := none, prompt := none }
  else
    match net with
    | .netError msg =>
        { envReads := 3, networkCalls := 1
          log := ["Error fetching Jira data: " ++ msg]
          ticket := none, prompt := none }
    | .response status body parsed =>
        if respOk status then
          match parsed with
          | .error msg =>
              { envReads := 3, networkCalls := 1
                log := ["Error fetching Jira data: " ++ msg]
                ticket := none, prompt := none }
          | .ok jiraResp =>
              match jiraResp.issues with
              | [] =>
                  { envReads := 3, networkCalls := 1
                    log := ["No ticket found with number " ++ ticketNumber]
                    ticket := none, prompt := none }
              | issue :: _ =>
                  let analysis := analyzeWithOllama issue backend
                  { envReads := 3, networkCalls := 1
                    log := ticketDetails issue ++ analysis.log
                    ticket := some issue, prompt := some analysis.prompt }
        else
          { envReads := 3, networkCalls := 1
            log := ["Error: API returned status code " ++ toString status,
                    "Response body: " ++ body]
            ticket := none, prompt := none }

/-- JavaScript `String.prototype.trim`: strip whitespace from both ends.
(Defined over the character list because it must evaluate inside the kernel;
`String.trim` of the core library gets stuck on `Substring.takeWhileAux`.) -/
def jsTrim (s : String) : String :=
  ⟨((s.data.dropWhile Char.isWhitespace).reverse.dropWhile Char.isWhitespace).reverse⟩

/-- The prompt `readlineSync.question` prints each iteration (line 122). -/
def questionMsg : String := "\nEnter Jira ticket number (e.g., PROJ-123): "

/-- One turn of the interactive loop as seen from outside: the line the user
typed, and what the network and the model backend would answer. -/
structure IterInput where
  line : String
  net : HttpOutcome
  backend : ModelOutcome
deriving DecidableEq, Repr

/-- Trace of one loop iteration: the identifier `fetchJiraTicket` was called
with (if it was called at all), the environment reads it performed, and the
console output of the iteration. -/
structure IterTrace where
  fetchArg : Option String
  envReads : Nat
  output : List String
deriving DecidableEq, Repr

/-- One iteration of the `while (true)` loop (lines 121-126): print the
question, read a line, and call `fetchJiraTicket` on the trimmed line exactly
when it is non-empty after trimming. -/
def loopIteration (env : Env) (it : IterInput) : IterTrace :=
  if jsTrim it.line = "" then
    { fetchArg := none, envReads := 0, output := [questionMsg] }
  else
    let tr := fetchJiraTicket env (jsTrim it.line) it.net it.backend
    { fetchArg := some (jsTrim it.line), envReads := tr.envReads
      output := questionMsg :: tr.log }

/-- The loop run over a finite script of user turns. -/
def runLoop (env : Env) (script : List IterInput) : List IterTrace :=
  script.map (loopIteration env)

/-- Total number of environment-variable reads performed by the loop body over
a whole script. -/
def loopEnvReads (env : Env) (script : List IterInput) : Nat :=
  ((runLoop env script).map (fun tr => tr.envReads)).sum

/-- `main` (lines 118-127): the banner line followed by the concatenated
output of every iteration. -/
def mainOutput (env : Env) (script : List IterInput) : List String :=
  "Jira Ticket Analyzer (Press Ctrl+C to exit)"
    :: (runLoop env script).flatMap (fun tr => tr.output)

/-- One file entry of the pull-request file list, as described in §3 of the
design document: `patch` is absent when the upstream omits it. -/
structure FileChange where
  filename : String
  status : String
  additions : Nat
  deletions : Nat
  patch : Option String
deriving DecidableEq, Repr

/-- Pull-request metadata record, as described in §3 of the design document. -/
structure PullRequestMeta where
  number : Nat
  title : String
  state : String
  body : String
  authorLogin : String
deriving DecidableEq, Repr

/-- A response from the code-review backend: a status code and a payload that
is meaningful when the status is a success. -/
structure GhResp (α : Type) where
  status : Nat
  payload : α
deriving DecidableEq, Repr

/-- Modelled from the spec: the GitHub pull-request fetcher is not present in
the source under src/ (only the README mentions PR analysis); §4.1 and §5 of
the design document specify `fetchPullRequest` as issuing two GET requests
(PR metadata and PR file list) against the same authenticated backend, with
both-or-nothing semantics: missing configuration signals ConfigurationMissing
and yields an absent record; unless both requests return 2xx the whole fetch
signals an UpstreamError reporting both status codes and yields an absent
record; otherwise the pair of metadata and ordered file list is returned. -/
def fetchPullRequest (token owner : Option String) (metaResp : GhResp PullRequestMeta)
    (filesResp : GhResp (List FileChange)) :
    Option (PullRequestMeta × List FileChange) × List String :=
  if isBlank token || isBlank owner then
    (none, ["ConfigurationMissing"])
  else if respOk metaResp.status && respOk filesResp.status then
    (some (metaResp.payload, filesResp.payload), [])
  else
    (none,
     ["UpstreamError: PR requests returned status codes "
        ++ toString metaResp.status ++ " and " ++ toString filesResp.status])

/-- The print loop of the standalone Go iteration (lines 332-337 of the
concatenated source): it prints key, summary, status and a divider for every
issue of the response, not only the first. -/
def goPrintIssues (issues : List JiraIssue) : List String :=
  issues.flatMap fun issue =>
    ["Issue Key: " ++ issue.key,
     "Summary: " ++ issue.fields.summary,
     "Status: " ++ issue.fields.status.name,
     "-------------------"]

/-- C1: if any of the three required configuration values (account email, API
token, domain) is falsy, `fetchJiraTicket` returns immediately with an absent
ticket, prints exactly the guidance message, and performs zero network calls;
the model stage never runs. -/
theorem fetchJiraTicket_configMissing (env : Env) (t : String) (net : HttpOutcome)
    (backend : ModelOutcome) (h : envMissing env = true) :
    fetchJiraTicket env t net backend =
      { envReads := 3, networkCalls := 0
        log := ["Please set JIRA_EMAIL, JIRA_API_TOKEN, and JIRA_DOMAIN environment variables"]
        ticket := none, prompt := none } := by
  simp [fetchJiraTicket, h]

/-- Witness for C1: a concrete environment with the API token unset. -/
theorem fetchJiraTicket_configMissing_witness :
    fetchJiraTicket ⟨some "dev@example.com", none, some "example.atlassian.net"⟩
        "PROJ-1" (.netError "unreachable") (.ok "done") =
      { envReads := 3, networkCalls := 0
        log := ["Please set JIRA_EMAIL, JIRA_API_TOKEN, and JIRA_DOMAIN environment variables"]
        ticket := none, prompt := none } :=
  fetchJiraTicket_configMissing _ _ _ _ rfl

/-- C2: a non-success HTTP status makes `fetchJiraTicket` print the numeric
status code and the raw response body and return an absent ticket; the model
stage never runs. -/
theorem fetchJiraTicket_upstreamError (env : Env) (t : String) (status : Nat)
    (body : String) (parsed : Parsed) (backend : ModelOutcome)
    (henv : envMissing env = false) (hst : respOk status = false) :
    fetchJiraTicket env t (.response status body parsed) backend =
      { envReads := 3, networkCalls := 1
        log := ["Error: API returned status code " ++ toString status,
                "Response body: " ++ body]
        ticket := none, prompt := none } := by
  simp [fetchJiraTicket, henv, hst]

/-- Witness for C2: a concrete 404 response. -/
theorem fetchJiraTicket_upstreamError_witness :
    fetchJiraTicket ⟨some "dev@example.com", some "tok", some "example.atlassian.net"⟩
        "PROJ-1" (.response 404 "issue does not exist" (.error "unused")) (.ok "done") =
      { envReads := 3, networkCalls := 1
        log := ["Error: API returned status code 404",
                "Response body: issue does not exist"]
        ticket := none, prompt := none } :=
  fetchJiraTicket_upstreamError _ _ _ _ _ _ rfl rfl

/-- C3: a successful response whose issues list is empty makes
`fetchJiraTicket` return an absent ticket and print exactly the not-found
message naming the requested ticket identifier; no error is raised (the
function is total) and the model stage never runs. -/
theorem fetchJiraTicket_notFound (env : Env) (t : String) (status : Nat)
    (body : String) (backend : ModelOutcome)
    (henv : envMissing env = false) (hst : respOk status = true) :
    fetchJiraTicket env t (.response status body (.ok ⟨[]⟩)) backend =
      { envReads := 3, networkCalls := 1
        log := ["No ticket found with number " ++ t]
        ticket := none, prompt := none } := by
  simp [fetchJiraTicket, henv, hst]

/-- Witness for C3: a concrete 200 response with zero issues. -/
theorem fetchJiraTicket_notFound_witness :
    fetchJiraTicket ⟨some "dev@example.com", some "tok", some "example.atlassian.net"⟩
        "PROJ-9" (.response 200 "" (.ok ⟨[]⟩)) (.ok "done") =
      { envReads := 3, networkCalls := 1
        log := ["No ticket found with number PROJ-9"]
        ticket := none, prompt := none } :=
  fetchJiraTicket_notFound _ _ _ _ _ rfl rfl

/-- C4: on the success path, an empty or null description is replaced by the
fixed placeholder both in the printed ticket details and in the value
substituted into the rendered prompt, while a non-empty description is passed
through unchanged to both. -/
theorem description_placeholder_substitution (env : Env) (t body : String)
    (status : Nat) (backend : ModelOutcome) (issue : JiraIssue)
    (rest : List JiraIssue)
    (henv : envMissing env = false) (hst : respOk status = true) :
    ((issue.fields.description = none ∨ issue.fields.description = some "") →
      ("Description: " ++ placeholderText)
          ∈ (fetchJiraTicket env t (.response status body (.ok ⟨issue :: rest⟩)) backend).log
        ∧ (fetchJiraTicket env t (.response status body (.ok ⟨issue :: rest⟩)) backend).prompt
          = some (promptTemplateFilled issue.key issue.fields.summary placeholderText
              issue.fields.status.name))
    ∧ (∀ s : String, issue.fields.description = some s → s ≠ "" →
        ("Description: " ++ s)
            ∈ (fetchJiraTicket env t (.response status body (.ok ⟨issue :: rest⟩)) backend).log
          ∧ (fetchJiraTicket env t (.response status body (.ok ⟨issue :: rest⟩)) backend).prompt
            = some (promptTemplateFilled issue.key issue.fields.summary s
                issue.fields.status.name)) := by
  constructor
  · intro hd
    have hdp : descOrPlaceholder issue.fields.description = placeholderText := by
      rcases hd with h | h <;> simp [descOrPlaceholder, h]
    constructor
    · simp [fetchJiraTicket, henv, hst, ticketDetails, hdp]
    · simp [fetchJiraTicket, henv, hst, analyzeWithOllama, renderPrompt, hdp]
  · intro s hs hne
    have hdp : descOrPlaceholder issue.fields.description = s := by
      simp [descOrPlaceholder, hs, hne]
    constructor
    · simp [fetchJiraTicket, henv, hst, ticketDetails, hdp]
    · simp [fetchJiraTicket, henv, hst, analyzeWithOllama, renderPrompt, hdp]

/-- Witness for C4: a concrete issue whose description is the empty string
renders the placeholder into the printed details. -/
theorem description_placeholder_substitution_witness :
    ("Description: " ++ placeholderText)
      ∈ (fetchJiraTicket ⟨some "dev@example.com", some "tok", some "example.atlassian.net"⟩
          "PROJ-1" (.response 200 ""
            (.ok ⟨[⟨"PROJ-1", ⟨"Fix bug", some "", ⟨"Open"⟩⟩⟩]⟩)) (.ok "summary")).log :=
  ((description_placeholder_substitution
      ⟨some "dev@example.com", some "tok", some "example.atlassian.net"⟩
      "PROJ-1" "" 200 (.ok "summary") ⟨"PROJ-1", ⟨"Fix bug", some "", ⟨"Open"⟩⟩⟩
      [] rfl rfl).1 (Or.inr rfl)).1

/-- C5: the rendered prompt is a deterministic function of the four fields the
code substitutes into the template; structurally equal issue records render
byte-identical prompt strings. -/
theorem renderPrompt_deterministic (a b : JiraIssue)
    (hk : a.key = b.key) (hs : a.fields.summary = b.fields.summary)
    (hd : a.fields.description = b.fields.description)
    (hn : a.fields.status.name = b.fields.status.name) :
    renderPrompt a = renderPrompt b := by
  simp [renderPrompt, hk, hs, hd, hn]

/-- Witness for C5: two identically-built records render the same prompt. -/
theorem renderPrompt_deterministic_witness :
    renderPrompt ⟨"PROJ-1", ⟨"Fix bug", some "details", ⟨"Open"⟩⟩⟩
      = renderPrompt ⟨"PROJ-1", ⟨"Fix bug", some "details", ⟨"Open"⟩⟩⟩ :=
  renderPrompt_deterministic _ _ rfl rfl rfl rfl

/-- C6: a thrown network error and a JSON parse error are caught at the fetch
boundary and turned into a single logged line with an absent ticket; a model
backend error is caught at the analyze boundary and turned into a logged line
after the printed details; and the interactive loop runs one iteration per
input line regardless of such failures, each iteration starting with the next
input prompt. -/
theorem errors_caught_and_loop_continues (env : Env)
    (t body netMsg parseMsg modelMsg : String) (backend : ModelOutcome)
    (issue : JiraIssue) (script : List IterInput)
    (henv : envMissing env = false) :
    ((fetchJiraTicket env t (.netError netMsg) backend).ticket = none
      ∧ (fetchJiraTicket env t (.netError netMsg) backend).log
          = ["Error fetching Jira data: " ++ netMsg])
    ∧ ((fetchJiraTicket env t (.response 200 body (.error parseMsg)) backend).ticket = none
      ∧ (fetchJiraTicket env t (.response 200 body (.error parseMsg)) backend).log
          = ["Error fetching Jira data: " ++ parseMsg])
    ∧ ((fetchJiraTicket env t (.response 200 body (.ok ⟨[issue]⟩)) (.error modelMsg)).log
        = ticketDetails issue ++ [connectMsg, "Error analyzing with Ollama: " ++ modelMsg])
    ∧ (runLoop env script).length = script.length
    ∧ (∀ tr ∈ runLoop env script, tr.output.head? = some questionMsg) := by
  refine ⟨⟨?_, ?_⟩, ⟨?_, ?_⟩, ?_, ?_, ?_⟩
  · simp [fetchJiraTicket, henv]
  · simp [fetchJiraTicket, henv]
  · simp [fetchJiraTicket, henv, respOk]
  · simp [fetchJiraTicket, henv, respOk]
  · simp [fetchJiraTicket, henv, respOk, analyzeWithOllama]
  · simp [runLoop]
  · intro tr htr
    simp [runLoop] at htr
    obtain ⟨it, -, rfl⟩ := htr
    by_cases h : jsTrim it.line = "" <;> simp [loopIteration, h]

/-- Witness for C6: a two-turn script in which the first turn hits a network
failure and the second a JSON parse failure still runs both iterations. -/
theorem errors_caught_and_loop_continues_witness :
    (runLoop ⟨some "dev@example.com", some "tok", some "example.atlassian.net"⟩
        [⟨"PROJ-1", .netError "socket hang up", .ok "x"⟩,
         ⟨"PROJ-2", .response 200 "truncated json" (.error "Unexpected end of JSON input"), .ok "x"⟩]).length
      = 2 :=
  (errors_caught_and_loop_continues
      ⟨some "dev@example.com", some "tok", some "example.atlassian.net"⟩
      "PROJ-1" "truncated json" "socket hang up" "Unexpected end of JSON input" "m" (.ok "x")
      ⟨"K-1", ⟨"s", none, ⟨"Open"⟩⟩⟩
      [⟨"PROJ-1", .netError "socket hang up", .ok "x"⟩,
       ⟨"PROJ-2", .response 200 "truncated json" (.error "Unexpected end of JSON input"), .ok "x"⟩]
      rfl).2.2.2.1

/-- C7: one loop iteration calls the ticket fetcher exactly when the input
line is non-empty after trimming, and then with the trimmed identifier;
whitespace-only input skips the fetch for that iteration. -/
theorem loop_fetch_iff_nonblank (env : Env) (it : IterInput) :
    ((loopIteration env it).fetchArg = none ↔ jsTrim it.line = "")
    ∧ (∀ id, (loopIteration env it).fetchArg = some id → id = jsTrim it.line)
    ∧ ((loopIteration env it).fetchArg
        = if jsTrim it.line = "" then none else some (jsTrim it.line)) := by
  by_cases h : jsTrim it.line = "" <;> simp [loopIteration, h]

/-- Witness for C7: an input line with surrounding whitespace leads to a fetch
with the trimmed identifier. -/
theorem loop_fetch_iff_nonblank_witness :
    ((loopIteration ⟨some "e", some "t", some "d"⟩
          ⟨"  PROJ-7  ", .netError "down", .ok "x"⟩).fetchArg = none
        ↔ jsTrim "  PROJ-7  " = "")
      ∧ (∀ id,
          (loopIteration ⟨some "e", some "t", some "d"⟩
              ⟨"  PROJ-7  ", .netError "down", .ok "x"⟩).fetchArg = some id →
            id = jsTrim "  PROJ-7  ")
      ∧ ((loopIteration ⟨some "e", some "t", some "d"⟩
              ⟨"  PROJ-7  ", .netError "down", .ok "x"⟩).fetchArg
          = if jsTrim "  PROJ-7  " = "" then none else some (jsTrim "  PROJ-7  ")) :=
  loop_fetch_iff_nonblank ⟨some "e", some "t", some "d"⟩
    ⟨"  PROJ-7  ", .netError "down", .ok "x"⟩

/-- Every call of `fetchJiraTicket` performs exactly three environment-variable
reads (lines 28-30 run unconditionally at the top of the function). -/
theorem fetchJiraTicket_envReads_eq (env : Env) (t : String) (net : HttpOutcome)
    (backend : ModelOutcome) :
    (fetchJiraTicket env t net backend).envReads = 3 := by
  by_cases h : envMissing env = true
  · simp [fetchJiraTicket, h]
  · rcases net with msg | ⟨st, body, parsed⟩
    · simp [fetchJiraTicket, h]
    · by_cases hst : respOk st = true
      · rcases parsed with ⟨⟨issues⟩⟩ | msg
        · rcases issues with - | ⟨i, rest⟩ <;> simp [fetchJiraTicket, h, hst]
        · simp [fetchJiraTicket, h, hst]
      · simp [fetchJiraTicket, h, hst]

/-- Counterexample for C8: configuration is not only read at startup — a
single-turn run of the interactive loop performs a nonzero number of
environment-variable reads, because `fetchJiraTicket` reads the three
variables on every invocation (lines 28-30 are inside the per-iteration
fetch, not at process startup). -/
theorem config_reread_counterexample :
    loopEnvReads ⟨some "dev@example.com", some "tok", some "example.atlassian.net"⟩
        [⟨"PROJ-1", .netError "down", .ok "x"⟩] ≠ 0 := by
  decide

/-- C8 (amended): the three configuration variables are re-read by every fetch
invocation — the loop performs exactly three environment reads per non-blank
input line — but the environment is never mutated, so iterations with the same
input line, network outcome and backend outcome observe the same configuration
and behave identically. -/
theorem config_reread_but_immutable (env : Env) (script : List IterInput)
    (it1 it2 : IterInput) (hline : it1.line = it2.line) (hnet : it1.net = it2.net)
    (hbackend : it1.backend = it2.backend) :
    loopEnvReads env script
        = 3 * (script.filter (fun it => !(jsTrim it.line == ""))).length
    ∧ loopIteration env it1 = loopIteration env it2 := by
  constructor
  · induction script with
    | nil => rfl
    | cons it rest ih =>
      simp only [loopEnvReads, runLoop, List.map_cons, List.map_map, List.sum_cons,
        List.filter_cons] at ih ⊢
      by_cases h : jsTrim it.line = ""
      · simp [loopIteration, h, ih]
      · simp [loopIteration, h, fetchJiraTicket_envReads_eq, ih]
        ring
  · rcases it1 with ⟨l1, n1, b1⟩
    rcases it2 with ⟨l2, n2, b2⟩
    cases hline
    cases hnet
    cases hbackend
    rfl

/-- Witness for C8 (amended): a concrete two-turn script with one blank line
performs exactly three environment reads. -/
theorem config_reread_but_immutable_witness :
    loopEnvReads ⟨some "dev@example.com", some "tok", some "example.atlassian.net"⟩
        [⟨"PROJ-1", .netError "down", .ok "x"⟩, ⟨"   ", .netError "down", .ok "x"⟩]
      = 3 * ([(⟨"PROJ-1", .netError "down", .ok "x"⟩ : IterInput),
              ⟨"   ", .netError "down", .ok "x"⟩].filter
          (fun it => !(jsTrim it.line == ""))).length :=
  (config_reread_but_immutable
      ⟨some "dev@example.com", some "tok", some "example.atlassian.net"⟩
      [⟨"PROJ-1", .netError "down", .ok "x"⟩, ⟨"   ", .netError "down", .ok "x"⟩]
      ⟨"PROJ-1", .netError "down", .ok "x"⟩ ⟨"PROJ-1", .netError "down", .ok "x"⟩
      rfl rfl rfl).1

/-- C9: when the configuration is present but either of the two concurrent PR
requests returns a non-2xx status, the whole PR fetch yields an absent record
(never a partially populated pair) and the logged UpstreamError message
reports both status codes. -/
theorem fetchPullRequest_bothOrNothing (token owner : Option String)
    (metaResp : GhResp PullRequestMeta) (filesResp : GhResp (List FileChange))
    (hcfg : (isBlank token || isBlank owner) = false)
    (hfail : (respOk metaResp.status && respOk filesResp.status) = false) :
    fetchPullRequest token owner metaResp filesResp
      = (none,
         ["UpstreamError: PR requests returned status codes "
            ++ toString metaResp.status ++ " and " ++ toString filesResp.status]) := by
  simp [fetchPullRequest, hcfg, hfail]

/-- Witness for C9: metadata request succeeds with 200, file-list request
fails with 500, and the fetch yields an absent record naming both codes. -/
theorem fetchPullRequest_bothOrNothing_witness :
    fetchPullRequest (some "ghp-token") (some "acme")
        ⟨200, ⟨42, "Add feature", "open", "body", "alice"⟩⟩ ⟨500, []⟩
      = (none, ["UpstreamError: PR requests returned status codes 200 and 500"]) :=
  fetchPullRequest_bothOrNothing (some "ghp-token") (some "acme")
    ⟨200, ⟨42, "Add feature", "open", "body", "alice"⟩⟩ ⟨500, []⟩ rfl rfl

/-- Counterexample for C10: in the standalone Go iteration of the repository
(lines 332-337 of the concatenated source) the print loop ranges over every
issue of the response, so a second issue in the list does change the printed
output — the claim that further issues have no effect on the output does not
hold for that cited code. -/
theorem goPrint_second_issue_changes_output :
    goPrintIssues
        [⟨"PROJ-1", ⟨"Fix bug", some "", ⟨"Open"⟩⟩⟩,
         ⟨"PROJ-2", ⟨"Other work", none, ⟨"Done"⟩⟩⟩]
      ≠ goPrintIssues [⟨"PROJ-1", ⟨"Fix bug", some "", ⟨"Open"⟩⟩⟩] := by
  decide

/-- C10 (amended): in the interactive TypeScript fetcher, exactly the first
element of a non-empty issues list is mapped into the printed ticket details
and the model prompt, and any further issues have no effect on the whole
fetch trace; the standalone Go iteration instead prints every issue. -/
theorem fetchJiraTicket_first_issue_only (env : Env) (t body : String)
    (status : Nat) (backend : ModelOutcome) (issue : JiraIssue)
    (rest : List JiraIssue)
    (henv : envMissing env = false) (hst : respOk status = true) :
    fetchJiraTicket env t (.response status body (.ok ⟨issue :: rest⟩)) backend
      = fetchJiraTicket env t (.response status body (.ok ⟨[issue]⟩)) backend
    ∧ (fetchJiraTicket env t (.response status body (.ok ⟨issue :: rest⟩)) backend).ticket
      = some issue := by
  simp [fetchJiraTicket, henv, hst]

/-- Witness for C10 (amended): a concrete response with two issues produces
the same trace as the response holding only its first issue. -/
theorem fetchJiraTicket_first_issue_only_witness :
    fetchJiraTicket ⟨some "dev@example.com", some "tok", some "example.atlassian.net"⟩
        "PROJ-1"
        (.response 200 ""
          (.ok ⟨[⟨"PROJ-1", ⟨"Fix bug", some "", ⟨"Open"⟩⟩⟩,
                 ⟨"PROJ-2", ⟨"Other work", none, ⟨"Done"⟩⟩⟩]⟩)) (.ok "summary")
      = fetchJiraTicket ⟨some "dev@example.com", some "tok", some "example.atlassian.net"⟩
          "PROJ-1"
          (.response 200 "" (.ok ⟨[⟨"PROJ-1", ⟨"Fix bug", some "", ⟨"Open"⟩⟩⟩]⟩))
          (.ok "summary") :=
  (fetchJiraTicket_first_issue_only
      ⟨some "dev@example.com", some "tok", some "example.atlassian.net"⟩
      "PROJ-1" "" 200 (.ok "summary") ⟨"PROJ-1", ⟨"Fix bug", some "", ⟨"Open"⟩⟩⟩
      [⟨"PROJ-2", ⟨"Other work", none, ⟨"Done"⟩⟩⟩] rfl rfl).1
